import Mathlib

/- Verification development for the multirotor sizing notebook
   `06_SystemSizingCodeOptimization-Student.ipynb`: data model, sizing
   evaluator, constraint assembly, mode dispatch and optimization driver
   data.  The notebook is the student version: the algebraic sizing
   formulas and the contents of the constraint lists are left blank in it
   (the README states that the teacher code is not provided), so those
   parts are modelled from the specification; the mode dispatch, the
   penalty loop, the bounds, the initial vector and every reference
   constant are taken from the notebook itself. -/

namespace Multirotor

/-- The 8-component design vector of the optimization problem: the
`param` argument of `sizing_code` (notebook cell "Optimisation
variables"). -/
structure DesignVector where
  beta_pro : ℚ
  k_os : ℚ
  k_ND : ℚ
  k_mot : ℚ
  k_speed_mot : ℚ
  k_mb : ℚ
  k_vb : ℚ
  k_D : ℚ
  deriving DecidableEq

/-- Mission specification and architecture constants (notebook cells
"Specifications" and "Architecture definition"). -/
structure Specs where
  M_pay : ℚ
  a_to : ℚ
  t_hov_spec : ℚ
  MTOW : ℚ
  MAX_TIME : Bool
  N_arm : ℕ
  N_pro_arm : ℕ
  deriving DecidableEq

/-- The specification values of the notebook (cells 8 and 10):
payload 100 kg, takeoff acceleration 0.25 g, 25 min hover target,
360 kg MTOW, mass-minimisation objective, 4 arms with 2 propellers
each. -/
def specsSrc : Specs where
  M_pay := 100
  a_to := 0.25 * 9.81
  t_hov_spec := 25
  MTOW := 360
  MAX_TIME := false
  N_arm := 4
  N_pro_arm := 2

/-- The notebook specification with the objective mode flipped to
maximise hover time. -/
def specsTime : Specs := { specsSrc with MAX_TIME := true }

/-- Reference component parameters for the scaling laws (notebook cells
13, 15, 17 and 19). -/
structure RefConsts where
  M_bat_ref : ℚ
  E_bat_ref : ℚ
  P_esc_ref : ℚ
  M_esc_ref : ℚ
  T_nom_mot_ref : ℚ
  T_max_mot_ref : ℚ
  R_mot_ref : ℚ
  M_mot_ref : ℚ
  K_mot_ref : ℚ
  T_mot_fr_ref : ℚ
  sigma_max : ℚ
  rho_s : ℚ
  rho_air : ℚ
  ND_max : ℚ
  D_pro_ref : ℚ
  M_pro_ref : ℚ
  deriving DecidableEq

/-- The reference values of the notebook, written as the notebook
writes them. -/
def refsSrc : RefConsts where
  M_bat_ref := 0.329
  E_bat_ref := 220 * 3600 * 0.329
  P_esc_ref := 3108
  M_esc_ref := 0.115
  T_nom_mot_ref := 2.32
  T_max_mot_ref := 85 / 70 * 2.32
  R_mot_ref := 0.03
  M_mot_ref := 0.575
  K_mot_ref := 0.03
  T_mot_fr_ref := 0.03
  sigma_max := 280000000 / 4
  rho_s := 1700
  rho_air := 1.18
  ND_max := 105000 / 60 * 0.0254
  D_pro_ref := 11 * 0.0254
  M_pro_ref := 0.53 * 0.0283

/-- Modelled from the spec: the estimation sub-models that the student
notebook leaves blank and that the teacher code (not provided in the
repository) would contain.  The square root used to invert the thrust
law, the fitted aerodynamic polynomials for the thrust and power
coefficients, the voltage estimation from power through a nominal
current density, the ESC voltage rating law, the power-law scaling
functions of the propeller and motor scaling laws, the root of the
beam-bending stress criterion, and the numeric constants pi, per-cell
voltage and arm-separation sine are kept as parameters of the model. -/
structure Model where
  sqrtQ : ℚ → ℚ
  polyT : ℚ → ℚ
  polyP : ℚ → ℚ
  voltEst : ℚ → ℚ
  escVolt : ℚ → ℚ
  powPro : ℚ → ℚ
  powMotM : ℚ → ℚ
  powMotR : ℚ → ℚ → ℚ
  powMotF : ℚ → ℚ
  stressRoot : ℚ → ℚ
  piQ : ℚ
  cellVolt : ℚ
  sinSep : ℚ

/-- One full input of an evaluation: the modelled sub-models, the
mission specification, the reference constants and the candidate design
vector. -/
structure Inputs where
  m : Model
  s : Specs
  r : RefConsts
  dv : DesignVector

/-- Gravitational acceleration, 9.81 m/s² as in the notebook. -/
def grav : ℚ := 9.81

/-- Total propeller count `N_pro = N_pro_arm * N_arm` (notebook cell
10), as a rational. -/
def Nq (i : Inputs) : ℚ := (i.s.N_pro_arm * i.s.N_arm : ℕ)

/-- Modelled from the spec: estimated total mass, payload mass times
the mass-oversizing coefficient. -/
def M_total (i : Inputs) : ℚ := i.dv.k_os * i.s.M_pay

/-- Modelled from the spec: per-propeller hover thrust, total weight
over propeller count. -/
def F_pro_hov (i : Inputs) : ℚ := M_total i * grav / Nq i

/-- Modelled from the spec: per-propeller takeoff thrust, hover thrust
scaled by (g + a_to)/g. -/
def F_pro_to (i : Inputs) : ℚ := F_pro_hov i * (grav + i.s.a_to) / grav

/-- Modelled from the spec: static thrust coefficient, fitted polynomial
in the pitch/diameter ratio with the 0.8 de-rating factor of the
notebook comment. -/
def C_t (i : Inputs) : ℚ := 0.8 * i.m.polyT i.dv.beta_pro

/-- Modelled from the spec: static power coefficient, fitted polynomial
in the pitch/diameter ratio. -/
def C_p (i : Inputs) : ℚ := i.m.polyP i.dv.beta_pro

/-- Modelled from the spec: allowed speed-diameter product, maximum
limit slowed down by the slow-down coefficient. -/
def NDk (i : Inputs) : ℚ := i.r.ND_max / i.dv.k_ND

/-- Modelled from the spec: argument of the square root giving the
propeller diameter from the thrust law at takeoff. -/
def dArg (i : Inputs) : ℚ := F_pro_to i / (C_t i * i.r.rho_air * NDk i ^ 2)

/-- Modelled from the spec: propeller diameter from inverting
T = Ct·rho·n²·D⁴ at the takeoff point with n·D fixed. -/
def D_pro (i : Inputs) : ℚ := i.m.sqrtQ (dArg i)

/-- Modelled from the spec: takeoff propeller rotational speed. -/
def n_pro_to (i : Inputs) : ℚ := NDk i / D_pro i

/-- Modelled from the spec: takeoff propeller angular speed. -/
def Omega_pro_to (i : Inputs) : ℚ := n_pro_to i * 2 * i.m.piQ

/-- Modelled from the spec: propeller mass, power-law scaling in the
diameter ratio from the reference propeller. -/
def M_pro (i : Inputs) : ℚ := i.r.M_pro_ref * i.m.powPro (D_pro i / i.r.D_pro_ref)

/-- Modelled from the spec: takeoff mechanical power
P = Cp·rho·n³·D⁵. -/
def P_pro_to (i : Inputs) : ℚ := C_p i * i.r.rho_air * n_pro_to i ^ 3 * D_pro i ^ 5

/-- Modelled from the spec: takeoff propeller torque P/omega. -/
def T_pro_to (i : Inputs) : ℚ := P_pro_to i / Omega_pro_to i

/-- Modelled from the spec: argument of the square root giving the hover
rotational speed on the fixed diameter. -/
def hArg (i : Inputs) : ℚ := F_pro_hov i / (C_t i * i.r.rho_air * D_pro i ^ 4)

/-- Modelled from the spec: hover propeller rotational speed. -/
def n_pro_hov (i : Inputs) : ℚ := i.m.sqrtQ (hArg i)

/-- Modelled from the spec: hover propeller angular speed. -/
def Omega_pro_hov (i : Inputs) : ℚ := n_pro_hov i * 2 * i.m.piQ

/-- Modelled from the spec: hover mechanical power. -/
def P_pro_hov (i : Inputs) : ℚ := C_p i * i.r.rho_air * n_pro_hov i ^ 3 * D_pro i ^ 5

/-- Modelled from the spec: hover propeller torque. -/
def T_pro_hov (i : Inputs) : ℚ := P_pro_hov i / Omega_pro_hov i

/-- Modelled from the spec: battery voltage estimate from hover power
through a nominal current density, scaled by the voltage-oversizing
coefficient. -/
def U_bat_est (i : Inputs) : ℚ := i.dv.k_vb * i.m.voltEst (P_pro_hov i)

/-- Modelled from the spec: motor nominal torque, hover torque times the
torque-oversizing coefficient. -/
def T_nom_mot (i : Inputs) : ℚ := i.dv.k_mot * T_pro_hov i

/-- Modelled from the spec: motor mass, power-law scaling in the torque
ratio from the reference motor. -/
def M_mot (i : Inputs) : ℚ := i.r.M_mot_ref * i.m.powMotM (T_nom_mot i / i.r.T_nom_mot_ref)

/-- Modelled from the spec: motor torque constant, selected from the
voltage estimate and the takeoff speed scaled by the speed-oversizing
coefficient. -/
def K_mot (i : Inputs) : ℚ := U_bat_est i / (i.dv.k_speed_mot * Omega_pro_to i)

/-- Modelled from the spec: motor resistance, power-law scaling in
torque ratio and torque-constant ratio from the reference motor. -/
def R_mot (i : Inputs) : ℚ :=
  i.r.R_mot_ref * i.m.powMotR (T_nom_mot i / i.r.T_nom_mot_ref) (K_mot i / i.r.K_mot_ref)

/-- Modelled from the spec: motor friction torque, power-law scaling in
the torque ratio from the reference motor. -/
def T_mot_fr (i : Inputs) : ℚ := i.r.T_mot_fr_ref * i.m.powMotF (T_nom_mot i / i.r.T_nom_mot_ref)

/-- Modelled from the spec: motor maximum torque, nominal torque scaled
by the reference max/nominal ratio. -/
def T_max_mot (i : Inputs) : ℚ := T_nom_mot i * (i.r.T_max_mot_ref / i.r.T_nom_mot_ref)

/-- Modelled from the spec: hover motor current, torque over torque
constant with friction-torque compensation. -/
def I_mot_hov (i : Inputs) : ℚ := (T_pro_hov i + T_mot_fr i) / K_mot i

/-- Modelled from the spec: hover motor voltage R·I + K·omega. -/
def U_mot_hov (i : Inputs) : ℚ := R_mot i * I_mot_hov i + K_mot i * Omega_pro_hov i

/-- Modelled from the spec: hover electrical power U·I. -/
def P_el_mot_hov (i : Inputs) : ℚ := U_mot_hov i * I_mot_hov i

/-- Modelled from the spec: takeoff motor current. -/
def I_mot_to (i : Inputs) : ℚ := (T_pro_to i + T_mot_fr i) / K_mot i

/-- Modelled from the spec: takeoff motor voltage. -/
def U_mot_to (i : Inputs) : ℚ := R_mot i * I_mot_to i + K_mot i * Omega_pro_to i

/-- Modelled from the spec: takeoff electrical power. -/
def P_el_mot_to (i : Inputs) : ℚ := U_mot_to i * I_mot_to i

/-- Modelled from the spec: battery cell count, voltage estimate over
per-cell voltage rounded up. -/
def N_s_bat (i : Inputs) : ℤ := ⌈U_bat_est i / i.m.cellVolt⌉

/-- Modelled from the spec: battery voltage, cell voltage times cell
count. -/
def U_bat (i : Inputs) : ℚ := i.m.cellVolt * (N_s_bat i : ℚ)

/-- Modelled from the spec: battery mass, payload mass times the
battery-to-payload mass ratio. -/
def M_bat (i : Inputs) : ℚ := i.dv.k_mb * i.s.M_pay

/-- Modelled from the spec: battery energy from mass via the reference
energy density, with the 0.8 usable-capacity factor of the notebook
comment. -/
def E_bat (i : Inputs) : ℚ := 0.8 * i.r.E_bat_ref * (M_bat i / i.r.M_bat_ref)

/-- Modelled from the spec: battery capacity, energy over voltage. -/
def C_bat (i : Inputs) : ℚ := E_bat i / U_bat i

/-- Modelled from the spec: battery hover current, hover electrical
power times propeller count over battery voltage. -/
def I_bat (i : Inputs) : ℚ := P_el_mot_hov i * Nq i / U_bat i

/-- Modelled from the spec: hover time in minutes, capacity over
current. -/
def t_hov (i : Inputs) : ℚ := C_bat i / I_bat i / 60

/-- Modelled from the spec: ESC corner power, takeoff electrical power
scaled by the battery-to-motor voltage ratio. -/
def P_esc (i : Inputs) : ℚ := P_el_mot_to i * U_bat i / U_mot_to i

/-- Modelled from the spec: ESC mass scaled from the reference ESC
ratings. -/
def M_esc (i : Inputs) : ℚ := i.r.M_esc_ref * (P_esc i / i.r.P_esc_ref)

/-- Modelled from the spec: ESC voltage rating from the ESC power. -/
def V_esc (i : Inputs) : ℚ := i.m.escVolt (P_esc i)

/-- Modelled from the spec: arm length from the propeller diameter and
the separation geometry. -/
def L_arm (i : Inputs) : ℚ := D_pro i / (2 * i.m.sinSep)

/-- Modelled from the spec: argument of the stress-criterion root giving
the outer arm diameter. -/
def sArg (i : Inputs) : ℚ :=
  32 * F_pro_to i * (i.s.N_pro_arm : ℚ) * L_arm i /
    (i.m.piQ * i.r.sigma_max * (1 - (1 - 2 * i.dv.k_D) ^ 4))

/-- Modelled from the spec: outer arm diameter from the beam-bending
stress criterion. -/
def D_out_arm (i : Inputs) : ℚ := i.m.stressRoot (sArg i)

/-- Modelled from the spec: arm wall thickness, aspect ratio times outer
diameter. -/
def e_arm (i : Inputs) : ℚ := i.dv.k_D * D_out_arm i

/-- Modelled from the spec: inner arm diameter. -/
def D_in_arm (i : Inputs) : ℚ := D_out_arm i - 2 * e_arm i

/-- Modelled from the spec: one arm mass, tube volume times material
density. -/
def M_arm (i : Inputs) : ℚ :=
  i.m.piQ / 4 * (D_out_arm i ^ 2 - D_in_arm i ^ 2) * L_arm i * i.r.rho_s

/-- Modelled from the spec: frame mass, arm mass over the 40% arm mass
fraction of the notebook comment. -/
def M_frame (i : Inputs) : ℚ := (i.s.N_arm : ℚ) * M_arm i / 0.4

/-- Modelled from the spec: recomputed real total mass, the sum of all
sized component masses plus the payload. -/
def M_total_real (i : Inputs) : ℚ :=
  (M_pro i + M_mot i + M_esc i) * Nq i + i.s.M_pay + M_bat i + M_frame i

/-- The quantities of an evaluation that the objective and the
constraint vector read. -/
structure Quantities where
  M_total : ℚ
  M_total_real : ℚ
  U_bat : ℚ
  U_mot_to : ℚ
  T_max_mot : ℚ
  T_pro_to : ℚ
  V_esc : ℚ
  t_hov : ℚ
  deriving DecidableEq

/-- The quantities computed by one evaluation of the sizing core. -/
def coreVals (i : Inputs) : Quantities where
  M_total := M_total i
  M_total_real := M_total_real i
  U_bat := U_bat i
  U_mot_to := U_mot_to i
  T_max_mot := T_max_mot i
  T_pro_to := T_pro_to i
  V_esc := V_esc i
  t_hov := t_hov i

/-- A negative argument reaches one of the root operations of the
evaluation. -/
def rootHazard (i : Inputs) : Prop := dArg i < 0 ∨ hArg i < 0 ∨ sArg i < 0

/-- A zero denominator reaches one of the divisions of the
evaluation. -/
def divHazard (i : Inputs) : Prop :=
  Nq i = 0 ∨ i.dv.k_ND = 0 ∨ C_t i * i.r.rho_air * NDk i ^ 2 = 0 ∨ D_pro i = 0 ∨
  i.r.D_pro_ref = 0 ∨ Omega_pro_to i = 0 ∨ C_t i * i.r.rho_air * D_pro i ^ 4 = 0 ∨
  Omega_pro_hov i = 0 ∨ i.r.T_nom_mot_ref = 0 ∨ i.dv.k_speed_mot * Omega_pro_to i = 0 ∨
  i.r.K_mot_ref = 0 ∨ K_mot i = 0 ∨ i.m.cellVolt = 0 ∨ i.r.M_bat_ref = 0 ∨ U_bat i = 0 ∨
  I_bat i = 0 ∨ U_mot_to i = 0 ∨ i.r.P_esc_ref = 0 ∨ i.m.sinSep = 0 ∨
  i.m.piQ * i.r.sigma_max * (1 - (1 - 2 * i.dv.k_D) ^ 4) = 0

/-- Some intermediate of the evaluation is non-physical: a negative
value under a root or a zero denominator. -/
def domainHazard (i : Inputs) : Prop := rootHazard i ∨ divHazard i

instance decRootHazard (i : Inputs) : Decidable (rootHazard i) := by
  unfold rootHazard
  infer_instance

instance decDivHazard (i : Inputs) : Decidable (divHazard i) := by
  unfold divHazard
  infer_instance

instance decDomainHazard (i : Inputs) : Decidable (domainHazard i) := by
  unfold domainHazard
  infer_instance

/-- The loud failure of the spec: a non-physical intermediate. -/
inductive DomainError where
  | negRoot
  | zeroDiv
  deriving DecidableEq

/-- The sizing core: runs the full evaluation and either signals a
domain error or returns the computed quantities. -/
def sizing_core (i : Inputs) : Except DomainError Quantities :=
  if rootHazard i then .error .negRoot
  else if divHazard i then .error .zeroDiv
  else .ok (coreVals i)

/-- One returned view of `sizing_code`: an objective scalar, a
constraint vector, or the presentation report. -/
inductive Output where
  | val (x : ℚ)
  | constraintList (cs : List ℚ)
  | report
  deriving DecidableEq

/-- Modelled from the spec: the contents of the two constraint lists the
student notebook leaves empty, in the order documented by the notebook's
own `Prt` branch (`M_total-M_total_real`, `U_bat-U_mot_to`,
`T_max_mot-T_pro_to`, `U_bat-V_esc`, `V_esc-U_mot_to`, then
`MTOW-M_total_real` or `t_hov-t_hov_spec` by objective mode). -/
def constraintsOf (s : Specs) (q : Quantities) : List ℚ :=
  if s.MAX_TIME then
    [q.M_total - q.M_total_real, q.U_bat - q.U_mot_to, q.T_max_mot - q.T_pro_to,
     q.U_bat - q.V_esc, q.V_esc - q.U_mot_to, s.MTOW - q.M_total_real]
  else
    [q.M_total - q.M_total_real, q.U_bat - q.U_mot_to, q.T_max_mot - q.T_pro_to,
     q.U_bat - q.V_esc, q.V_esc - q.U_mot_to, q.t_hov - s.t_hov_spec]

/-- The penalisation loop of the `ObjP` branch, as in the notebook:
`P = 0`, then `P = P - 1e9*C` for every negative constraint `C`. -/
def penalty (cs : List ℚ) : ℚ :=
  cs.foldl (fun P C => if C < 0 then P - 1000000000 * C else P) 0

/-- The mode dispatch of `sizing_code` on already-computed quantities,
exactly as in the notebook: `Obj` returns the objective selected by
`MAX_TIME`, `ObjP` the penalised objective, `Prt` the report, and any
other argument the constraint list.  The division `1/t_hov` signals a
zero-division error at a zero hover time. -/
def dispatch (s : Specs) (q : Quantities) (arg : String) : Except DomainError Output :=
  if arg = "Obj" then
    if s.MAX_TIME then
      if q.t_hov = 0 then .error .zeroDiv else .ok (.val (1 / q.t_hov))
    else .ok (.val q.M_total_real)
  else if arg = "ObjP" then
    if s.MAX_TIME then
      if q.t_hov = 0 then .error .zeroDiv
      else .ok (.val (1 / q.t_hov + penalty (constraintsOf s q)))
    else .ok (.val (q.M_total_real + penalty (constraintsOf s q)))
  else if arg = "Prt" then .ok .report
  else .ok (.constraintList (constraintsOf s q))

/-- The evaluation function of the notebook: run the sizing computation,
then return the view selected by the mode string. -/
def sizing_code (i : Inputs) (arg : String) : Except DomainError Output :=
  match sizing_core i with
  | .error e => .error e
  | .ok q => dispatch i.s q arg

/-- The bounds list of the notebook's optimization cell, used by both
solver calls. -/
def bounds : List (ℚ × ℚ) :=
  [(0.3, 0.6), (1, 400), (1, 100), (1, 100), (1, 400), (0.1, 100), (1, 5), (0.1, 0.99)]

/-- The bounds argument of the `fmin_slsqp` call. -/
def slsqpBounds : List (ℚ × ℚ) := bounds

/-- The bounds argument of the `differential_evolution` call. -/
def diffEvolBounds : List (ℚ × ℚ) := bounds

/-- The inclusive bound table of section 6 of the specification, written
from the spec for comparison with the notebook's list. -/
def specBoundsTable : List (ℚ × ℚ) :=
  [(0.3, 0.6), (1, 400), (1, 100), (1, 100), (1, 400), (0.1, 100), (1, 5), (0.1, 0.99)]

/-- The initial design vector of the notebook (cell "Optimisation
variables"): (0.33, 3.2, 1.2, 1.0, 1.2, 1.0, 1.0, 0.01). -/
def parameters : DesignVector where
  beta_pro := 0.33
  k_os := 3.2
  k_ND := 1.2
  k_mot := 1
  k_speed_mot := 1.2
  k_mb := 1
  k_vb := 1
  k_D := 0.01

/-- The design vector lies within the inclusive bound box of the
notebook's bounds list. -/
def inBox (dv : DesignVector) : Prop :=
  (0.3 ≤ dv.beta_pro ∧ dv.beta_pro ≤ 0.6) ∧ (1 ≤ dv.k_os ∧ dv.k_os ≤ 400) ∧
  (1 ≤ dv.k_ND ∧ dv.k_ND ≤ 100) ∧ (1 ≤ dv.k_mot ∧ dv.k_mot ≤ 100) ∧
  (1 ≤ dv.k_speed_mot ∧ dv.k_speed_mot ≤ 400) ∧ (0.1 ≤ dv.k_mb ∧ dv.k_mb ≤ 100) ∧
  (1 ≤ dv.k_vb ∧ dv.k_vb ≤ 5) ∧ (0.1 ≤ dv.k_D ∧ dv.k_D ≤ 0.99)

instance decInBox (dv : DesignVector) : Decidable (inBox dv) := by
  unfold inBox
  infer_instance

/-- The design vector components in the order of the bounds list. -/
def components (dv : DesignVector) : List ℚ :=
  [dv.beta_pro, dv.k_os, dv.k_ND, dv.k_mot, dv.k_speed_mot, dv.k_mb, dv.k_vb, dv.k_D]

theorem inBox_iff_forall_bounds (dv : DesignVector) :
    inBox dv ↔ List.Forall₂ (fun b x => b.1 ≤ x ∧ x ≤ b.2) bounds (components dv) := by
  unfold inBox bounds components
  constructor
  · rintro ⟨h0, h1, h2, h3, h4, h5, h6, h7⟩
    exact .cons h0 (.cons h1 (.cons h2 (.cons h3 (.cons h4 (.cons h5
      (.cons h6 (.cons h7 .nil)))))))
  · intro h
    rcases h with _ | ⟨h0, _ | ⟨h1, _ | ⟨h2, _ | ⟨h3, _ | ⟨h4, _ | ⟨h5, _ | ⟨h6, _ | ⟨h7, _⟩⟩⟩⟩⟩⟩⟩⟩
    exact ⟨h0, h1, h2, h3, h4, h5, h6, h7⟩

/-- Physical soundness of the modelled sub-models, from the spec's
words: the root operations, the fitted aerodynamic polynomials on the
bounded pitch/diameter range, the voltage estimates and the scaling-law
power functions all produce positive values from positive (in-range)
arguments, and the numeric constants are positive. -/
structure PhysicalModel (m : Model) : Prop where
  sqrt_pos : ∀ x, 0 < x → 0 < m.sqrtQ x
  polyT_pos : ∀ b, 0.3 ≤ b → b ≤ 0.6 → 0 < m.polyT b
  polyP_pos : ∀ b, 0.3 ≤ b → b ≤ 0.6 → 0 < m.polyP b
  voltEst_pos : ∀ x, 0 < x → 0 < m.voltEst x
  powPro_pos : ∀ x, 0 < x → 0 < m.powPro x
  powMotM_pos : ∀ x, 0 < x → 0 < m.powMotM x
  powMotR_pos : ∀ x y, 0 < x → 0 < y → 0 < m.powMotR x y
  powMotF_pos : ∀ x, 0 < x → 0 < m.powMotF x
  stressRoot_pos : ∀ x, 0 < x → 0 < m.stressRoot x
  piQ_pos : 0 < m.piQ
  cellVolt_pos : 0 < m.cellVolt
  sinSep_pos : 0 < m.sinSep

/-- Positivity of the mission-specification inputs, as section 6 of the
spec requires. -/
structure PhysicalSpecs (s : Specs) : Prop where
  M_pay_pos : 0 < s.M_pay
  a_to_pos : 0 < s.a_to
  N_arm_pos : 0 < s.N_arm
  N_pro_arm_pos : 0 < s.N_pro_arm

/-- Positivity of the reference constants, as section 6 of the spec
requires. -/
structure PhysicalRefs (r : RefConsts) : Prop where
  M_bat_ref_pos : 0 < r.M_bat_ref
  E_bat_ref_pos : 0 < r.E_bat_ref
  P_esc_ref_pos : 0 < r.P_esc_ref
  M_esc_ref_pos : 0 < r.M_esc_ref
  T_nom_mot_ref_pos : 0 < r.T_nom_mot_ref
  T_max_mot_ref_pos : 0 < r.T_max_mot_ref
  R_mot_ref_pos : 0 < r.R_mot_ref
  M_mot_ref_pos : 0 < r.M_mot_ref
  K_mot_ref_pos : 0 < r.K_mot_ref
  T_mot_fr_ref_pos : 0 < r.T_mot_fr_ref
  sigma_max_pos : 0 < r.sigma_max
  rho_s_pos : 0 < r.rho_s
  rho_air_pos : 0 < r.rho_air
  ND_max_pos : 0 < r.ND_max
  D_pro_ref_pos : 0 < r.D_pro_ref
  M_pro_ref_pos : 0 < r.M_pro_ref

/-- A physically sound instantiation of the model evaluated at an
in-bounds design vector. -/
def Admissible (i : Inputs) : Prop :=
  PhysicalModel i.m ∧ PhysicalSpecs i.s ∧ PhysicalRefs i.r ∧ inBox i.dv

/-- Positivity of the chain of intermediate quantities of one
evaluation. -/
structure Pos (i : Inputs) : Prop where
  nq_pos : 0 < Nq i
  k_ND_pos : 0 < i.dv.k_ND
  k_speed_mot_pos : 0 < i.dv.k_speed_mot
  M_total_pos : 0 < M_total i
  F_pro_hov_pos : 0 < F_pro_hov i
  F_pro_to_pos : 0 < F_pro_to i
  C_t_pos : 0 < C_t i
  C_p_pos : 0 < C_p i
  NDk_pos : 0 < NDk i
  dArg_pos : 0 < dArg i
  D_pro_pos : 0 < D_pro i
  n_pro_to_pos : 0 < n_pro_to i
  Omega_pro_to_pos : 0 < Omega_pro_to i
  P_pro_to_pos : 0 < P_pro_to i
  T_pro_to_pos : 0 < T_pro_to i
  hArg_pos : 0 < hArg i
  n_pro_hov_pos : 0 < n_pro_hov i
  Omega_pro_hov_pos : 0 < Omega_pro_hov i
  P_pro_hov_pos : 0 < P_pro_hov i
  T_pro_hov_pos : 0 < T_pro_hov i
  U_bat_est_pos : 0 < U_bat_est i
  T_nom_mot_pos : 0 < T_nom_mot i
  K_mot_pos : 0 < K_mot i
  R_mot_pos : 0 < R_mot i
  T_mot_fr_pos : 0 < T_mot_fr i
  I_mot_hov_pos : 0 < I_mot_hov i
  U_mot_hov_pos : 0 < U_mot_hov i
  P_el_mot_hov_pos : 0 < P_el_mot_hov i
  I_mot_to_pos : 0 < I_mot_to i
  U_mot_to_pos : 0 < U_mot_to i
  N_s_bat_pos : 0 < N_s_bat i
  U_bat_pos : 0 < U_bat i
  M_bat_pos : 0 < M_bat i
  E_bat_pos : 0 < E_bat i
  C_bat_pos : 0 < C_bat i
  I_bat_pos : 0 < I_bat i
  t_hov_pos : 0 < t_hov i
  quartic_pos : 0 < 1 - (1 - 2 * i.dv.k_D) ^ 4
  L_arm_pos : 0 < L_arm i
  sArg_pos : 0 < sArg i

/-- For an aspect ratio within its bounds the hollow-tube section factor
of the stress criterion is positive. -/
theorem quarticFactor_pos {k : ℚ} (h1 : 0.1 ≤ k) (h2 : k ≤ 0.99) :
    0 < 1 - (1 - 2 * k) ^ 4 := by
  have ha : -(49 / 50 : ℚ) ≤ 1 - 2 * k := by linarith
  have hc : 1 - 2 * k ≤ 4 / 5 := by linarith
  have h3 : (1 - 2 * k) ^ 2 ≤ (49 / 50 : ℚ) ^ 2 := by nlinarith
  nlinarith [sq_nonneg (1 - 2 * k), h3]

set_option maxHeartbeats 1000000 in
theorem pos_of_admissible (i : Inputs) (h : Admissible i) : Pos i := by
  obtain ⟨hm, hs, hr, hb⟩ := h
  obtain ⟨⟨hb0, hb0b⟩, ⟨hb1, _⟩, ⟨hb2, _⟩, ⟨hb3, _⟩, ⟨hb4, _⟩, ⟨hb5, _⟩, ⟨hb6, _⟩,
    ⟨hb7, hb7b⟩⟩ := hb
  have hg : (0 : ℚ) < grav := by norm_num [grav]
  have hnq : 0 < Nq i := by
    unfold Nq
    exact_mod_cast Nat.mul_pos hs.N_pro_arm_pos hs.N_arm_pos
  have hknd : 0 < i.dv.k_ND := lt_of_lt_of_le one_pos hb2
  have hksp : 0 < i.dv.k_speed_mot := lt_of_lt_of_le one_pos hb4
  have hkos : 0 < i.dv.k_os := lt_of_lt_of_le one_pos hb1
  have hMt : 0 < M_total i := by
    unfold M_total
    exact mul_pos hkos hs.M_pay_pos
  have hFh : 0 < F_pro_hov i := by
    unfold F_pro_hov
    exact div_pos (mul_pos hMt hg) hnq
  have hFt : 0 < F_pro_to i := by
    unfold F_pro_to
    exact div_pos (mul_pos hFh (add_pos hg hs.a_to_pos)) hg
  have hCt : 0 < C_t i := by
    unfold C_t
    exact mul_pos (by norm_num) (hm.polyT_pos _ hb0 hb0b)
  have hCp : 0 < C_p i := by
    unfold C_p
    exact hm.polyP_pos _ hb0 hb0b
  have hNDk : 0 < NDk i := by
    unfold NDk
    exact div_pos hr.ND_max_pos hknd
  have hdA : 0 < dArg i := by
    unfold dArg
    exact div_pos hFt (mul_pos (mul_pos hCt hr.rho_air_pos) (pow_pos hNDk 2))
  have hD : 0 < D_pro i := by
    unfold D_pro
    exact hm.sqrt_pos _ hdA
  have hn : 0 < n_pro_to i := by
    unfold n_pro_to
    exact div_pos hNDk hD
  have hOt : 0 < Omega_pro_to i := by
    unfold Omega_pro_to
    exact mul_pos (mul_pos hn two_pos) hm.piQ_pos
  have hPt : 0 < P_pro_to i := by
    unfold P_pro_to
    exact mul_pos (mul_pos (mul_pos hCp hr.rho_air_pos) (pow_pos hn 3)) (pow_pos hD 5)
  have hTt : 0 < T_pro_to i := by
    unfold T_pro_to
    exact div_pos hPt hOt
  have hhA : 0 < hArg i := by
    unfold hArg
    exact div_pos hFh (mul_pos (mul_pos hCt hr.rho_air_pos) (pow_pos hD 4))
  have hnh : 0 < n_pro_hov i := by
    unfold n_pro_hov
    exact hm.sqrt_pos _ hhA
  have hOh : 0 < Omega_pro_hov i := by
    unfold Omega_pro_hov
    exact mul_pos (mul_pos hnh two_pos) hm.piQ_pos
  have hPh : 0 < P_pro_hov i := by
    unfold P_pro_hov
    exact mul_pos (mul_pos (mul_pos hCp hr.rho_air_pos) (pow_pos hnh 3)) (pow_pos hD 5)
  have hTh : 0 < T_pro_hov i := by
    unfold T_pro_hov
    exact div_pos hPh hOh
  have hkvb : 0 < i.dv.k_vb := lt_of_lt_of_le one_pos hb6
  have hUe : 0 < U_bat_est i := by
    unfold U_bat_est
    exact mul_pos hkvb (hm.voltEst_pos _ hPh)
  have hkm : 0 < i.dv.k_mot := lt_of_lt_of_le one_pos hb3
  have hTn : 0 < T_nom_mot i := by
    unfold T_nom_mot
    exact mul_pos hkm hTh
  have hK : 0 < K_mot i := by
    unfold K_mot
    exact div_pos hUe (mul_pos hksp hOt)
  have hR : 0 < R_mot i := by
    unfold R_mot
    exact mul_pos hr.R_mot_ref_pos
      (hm.powMotR_pos _ _ (div_pos hTn hr.T_nom_mot_ref_pos) (div_pos hK hr.K_mot_ref_pos))
  have hTf : 0 < T_mot_fr i := by
    unfold T_mot_fr
    exact mul_pos hr.T_mot_fr_ref_pos (hm.powMotF_pos _ (div_pos hTn hr.T_nom_mot_ref_pos))
  have hIh : 0 < I_mot_hov i := by
    unfold I_mot_hov
    exact div_pos (add_pos hTh hTf) hK
  have hUh : 0 < U_mot_hov i := by
    unfold U_mot_hov
    exact add_pos (mul_pos hR hIh) (mul_pos hK hOh)
  have hPeh : 0 < P_el_mot_hov i := by
    unfold P_el_mot_hov
    exact mul_pos hUh hIh
  have hIt : 0 < I_mot_to i := by
    unfold I_mot_to
    exact div_pos (add_pos hTt hTf) hK
  have hUt : 0 < U_mot_to i := by
    unfold U_mot_to
    exact add_pos (mul_pos hR hIt) (mul_pos hK hOt)
  have hNs : 0 < N_s_bat i := by
    unfold N_s_bat
    exact Int.ceil_pos.mpr (div_pos hUe hm.cellVolt_pos)
  have hUb : 0 < U_bat i := by
    unfold U_bat
    exact mul_pos hm.cellVolt_pos (by exact_mod_cast hNs)
  have hkmb : 0 < i.dv.k_mb := lt_of_lt_of_le (by norm_num) hb5
  have hMb : 0 < M_bat i := by
    unfold M_bat
    exact mul_pos hkmb hs.M_pay_pos
  have hEb : 0 < E_bat i := by
    unfold E_bat
    exact mul_pos (mul_pos (by norm_num) hr.E_bat_ref_pos) (div_pos hMb hr.M_bat_ref_pos)
  have hCb : 0 < C_bat i := by
    unfold C_bat
    exact div_pos hEb hUb
  have hIb : 0 < I_bat i := by
    unfold I_bat
    exact div_pos (mul_pos hPeh hnq) hUb
  have hth : 0 < t_hov i := by
    unfold t_hov
    exact div_pos (div_pos hCb hIb) (by norm_num)
  have hq4 : 0 < 1 - (1 - 2 * i.dv.k_D) ^ 4 := quarticFactor_pos hb7 hb7b
  have hL : 0 < L_arm i := by
    unfold L_arm
    exact div_pos hD (mul_pos two_pos hm.sinSep_pos)
  have hNpa : (0 : ℚ) < (i.s.N_pro_arm : ℚ) := by exact_mod_cast hs.N_pro_arm_pos
  have hsA : 0 < sArg i := by
    unfold sArg
    exact div_pos (mul_pos (mul_pos (mul_pos (by norm_num) hFt) hNpa) hL)
      (mul_pos (mul_pos hm.piQ_pos hr.sigma_max_pos) hq4)
  exact ⟨hnq, hknd, hksp, hMt, hFh, hFt, hCt, hCp, hNDk, hdA, hD, hn, hOt, hPt, hTt,
    hhA, hnh, hOh, hPh, hTh, hUe, hTn, hK, hR, hTf, hIh, hUh, hPeh, hIt, hUt, hNs,
    hUb, hMb, hEb, hCb, hIb, hth, hq4, hL, hsA⟩

theorem not_rootHazard (i : Inputs) (h : Admissible i) : ¬ rootHazard i := by
  have p := pos_of_admissible i h
  unfold rootHazard
  push_neg
  exact ⟨le_of_lt p.dArg_pos, le_of_lt p.hArg_pos, le_of_lt p.sArg_pos⟩

theorem not_divHazard (i : Inputs) (h : Admissible i) : ¬ divHazard i := by
  have p := pos_of_admissible i h
  obtain ⟨hm, hs, hr, hb⟩ := h
  unfold divHazard
  push_neg
  exact ⟨p.nq_pos.ne', p.k_ND_pos.ne',
    (mul_pos (mul_pos p.C_t_pos hr.rho_air_pos) (pow_pos p.NDk_pos 2)).ne',
    p.D_pro_pos.ne', hr.D_pro_ref_pos.ne', p.Omega_pro_to_pos.ne',
    (mul_pos (mul_pos p.C_t_pos hr.rho_air_pos) (pow_pos p.D_pro_pos 4)).ne',
    p.Omega_pro_hov_pos.ne', hr.T_nom_mot_ref_pos.ne',
    (mul_pos p.k_speed_mot_pos p.Omega_pro_to_pos).ne', hr.K_mot_ref_pos.ne',
    p.K_mot_pos.ne', hm.cellVolt_pos.ne', hr.M_bat_ref_pos.ne', p.U_bat_pos.ne',
    p.I_bat_pos.ne', p.U_mot_to_pos.ne', hr.P_esc_ref_pos.ne', hm.sinSep_pos.ne',
    (mul_pos (mul_pos hm.piQ_pos hr.sigma_max_pos) p.quartic_pos).ne'⟩

/-- An admissible evaluation runs to completion: the sizing core returns
the computed quantities and no domain error. -/
theorem sizing_core_ok (i : Inputs) (h : Admissible i) :
    sizing_core i = .ok (coreVals i) := by
  unfold sizing_core
  rw [if_neg (not_rootHazard i h), if_neg (not_divHazard i h)]

/-- A point is feasible when every constraint entry is nonnegative (the
inequality-constraint convention of `fmin_slsqp`). -/
def Feasible (cs : List ℚ) : Prop := ∀ C ∈ cs, 0 ≤ C

/-- Sum of the magnitudes of the strictly negative entries of a
constraint vector. -/
def negMagSum (cs : List ℚ) : ℚ := (cs.map (fun C => if C < 0 then -C else 0)).sum

theorem penalty_foldl (cs : List ℚ) (P : ℚ) :
    cs.foldl (fun P C => if C < 0 then P - 1000000000 * C else P) P =
      P + 1000000000 * negMagSum cs := by
  induction cs generalizing P with
  | nil => simp [negMagSum]
  | cons c cs ih =>
    unfold negMagSum at *
    simp only [List.foldl_cons, List.map_cons, List.sum_cons]
    by_cases hc : c < 0
    · rw [if_pos hc, ih, if_pos hc]
      ring
    · rw [if_neg hc, ih, if_neg hc]
      ring

/-- The notebook's penalisation loop computes exactly 1e9 times the sum
of the magnitudes of the violated constraints. -/
theorem penalty_eq (cs : List ℚ) : penalty cs = 1000000000 * negMagSum cs := by
  unfold penalty
  rw [penalty_foldl]
  ring

theorem negMagSum_of_feasible (cs : List ℚ) : Feasible cs → negMagSum cs = 0 := by
  induction cs with
  | nil => intro _; simp [negMagSum]
  | cons c cs ih =>
    intro h
    obtain ⟨h1, h2⟩ := List.forall_mem_cons.mp h
    unfold negMagSum at *
    simp only [List.map_cons, List.sum_cons]
    rw [if_neg (not_lt.mpr h1), ih h2]
    simp

/-- A simple witness instantiation of the modelled sub-models: every
unknown function is positive-valued, so it satisfies the physical
soundness conditions. -/
def modelW : Model where
  sqrtQ := fun x => x
  polyT := fun _ => 1
  polyP := fun _ => 1
  voltEst := fun _ => 1
  escVolt := fun _ => 1
  powPro := fun _ => 1
  powMotM := fun _ => 1
  powMotR := fun _ _ => 1
  powMotF := fun _ => 1
  stressRoot := fun _ => 1
  piQ := 3
  cellVolt := 4
  sinSep := 1

theorem physModelW : PhysicalModel modelW :=
  ⟨fun _ hx => hx, fun _ _ _ => one_pos, fun _ _ _ => one_pos, fun _ _ => one_pos,
   fun _ _ => one_pos, fun _ _ => one_pos, fun _ _ _ _ => one_pos, fun _ _ => one_pos,
   fun _ _ => one_pos, by norm_num [modelW], by norm_num [modelW], one_pos⟩

theorem physSpecsSrc : PhysicalSpecs specsSrc := by
  constructor <;> norm_num [specsSrc]

theorem physSpecsTime : PhysicalSpecs specsTime := by
  constructor <;> norm_num [specsTime, specsSrc]

theorem physRefsSrc : PhysicalRefs refsSrc := by
  constructor <;> norm_num [refsSrc]

/-- An in-bounds witness design vector. -/
def dvW : DesignVector := ⟨1/2, 1, 1, 1, 1, 1, 1, 1/2⟩

/-- A second in-bounds witness design vector. -/
def dvW2 : DesignVector := ⟨2/5, 2, 1, 1, 1, 1, 1, 1/5⟩

/-- A third in-bounds witness design vector. -/
def dvW3 : DesignVector := ⟨7/20, 3, 2, 1, 1, 1, 1, 3/10⟩

/-- A witness design vector with a zero slow-down coefficient, which
puts a zero denominator into the propeller sizing. -/
def dvW4 : DesignVector := ⟨1/2, 1, 0, 1, 1, 1, 1, 1/2⟩

/-- A fourth in-bounds witness design vector, at the upper bound
corner. -/
def dvW5 : DesignVector := ⟨3/5, 400, 100, 100, 400, 100, 5, 99/100⟩

theorem inBoxdvW : inBox dvW := by norm_num [inBox, dvW]

theorem inBoxdvW2 : inBox dvW2 := by norm_num [inBox, dvW2]

theorem inBoxdvW3 : inBox dvW3 := by norm_num [inBox, dvW3]

theorem inBoxdvW5 : inBox dvW5 := by norm_num [inBox, dvW5]

theorem hazardW4 : domainHazard ⟨modelW, specsSrc, refsSrc, dvW4⟩ := by
  unfold domainHazard divHazard
  exact Or.inr (Or.inr (Or.inl rfl))

/-- When the core completes, the evaluation is the dispatch of the
computed quantities. -/
theorem sizing_code_ok_eq (i : Inputs) (q : Quantities)
    (hq : sizing_core i = .ok q) (arg : String) :
    sizing_code i arg = dispatch i.s q arg := by
  unfold sizing_code
  rw [hq]

/-- Dispatch of the constraint mode string. -/
theorem dispatch_const (s : Specs) (q : Quantities) :
    dispatch s q "Const" = .ok (.constraintList (constraintsOf s q)) := by
  unfold dispatch
  rw [if_neg (by decide : ¬ ("Const" = "Obj")), if_neg (by decide : ¬ ("Const" = "ObjP")),
    if_neg (by decide : ¬ ("Const" = "Prt"))]

/-- C1: for every design vector whose evaluation completes, mode `Obj`
returns the recomputed real total mass when the objective flag
`MAX_TIME` is false, and the reciprocal of the hover time when
`MAX_TIME` is true; in the latter case the returned value is positive
(and, being a rational, finite) whenever the hover time is positive. -/
theorem obj_mode_selects_objective (i : Inputs) (q : Quantities)
    (hq : sizing_core i = .ok q) :
    (i.s.MAX_TIME = false → sizing_code i "Obj" = .ok (.val q.M_total_real)) ∧
    (i.s.MAX_TIME = true → 0 < q.t_hov →
      sizing_code i "Obj" = .ok (.val (1 / q.t_hov)) ∧ 0 < 1 / q.t_hov) := by
  constructor
  · intro hmt
    rw [sizing_code_ok_eq i q hq]
    unfold dispatch
    rw [if_pos rfl, hmt]
    simp only [Bool.false_eq_true, if_false]
  · intro hmt ht
    refine ⟨?_, one_div_pos.mpr ht⟩
    rw [sizing_code_ok_eq i q hq]
    unfold dispatch
    rw [if_pos rfl, hmt]
    simp only [if_true, if_neg ht.ne']

theorem obj_mode_selects_objective_witness :
    sizing_code ⟨modelW, specsSrc, refsSrc, dvW⟩ "Obj" =
      .ok (.val ((coreVals ⟨modelW, specsSrc, refsSrc, dvW⟩).M_total_real)) ∧
    sizing_code ⟨modelW, specsTime, refsSrc, dvW⟩ "Obj" =
      .ok (.val (1 / (coreVals ⟨modelW, specsTime, refsSrc, dvW⟩).t_hov)) := by
  have h1 : Admissible ⟨modelW, specsSrc, refsSrc, dvW⟩ :=
    ⟨physModelW, physSpecsSrc, physRefsSrc, inBoxdvW⟩
  have h2 : Admissible ⟨modelW, specsTime, refsSrc, dvW⟩ :=
    ⟨physModelW, physSpecsTime, physRefsSrc, inBoxdvW⟩
  constructor
  · exact (obj_mode_selects_objective _ _ (sizing_core_ok _ h1)).1 rfl
  · exact ((obj_mode_selects_objective _ _ (sizing_core_ok _ h2)).2 rfl
      (pos_of_admissible _ h2).t_hov_pos).1

/-- C2: for every design vector whose evaluation completes, constraint
mode returns, in order, assumed minus real mass, battery voltage minus
takeoff motor voltage, motor max torque minus takeoff propeller torque,
battery voltage minus ESC voltage, ESC voltage minus takeoff motor
voltage, and then hover time minus target (minimise-mass mode) or MTOW
minus real mass (maximise-time mode); the point is feasible exactly when
every entry is nonnegative, i.e. when each availability exceeds its
requirement. -/
theorem constraint_vector_layout (i : Inputs) (q : Quantities)
    (hq : sizing_core i = .ok q) :
    sizing_code i "Const" = .ok (.constraintList
      [q.M_total - q.M_total_real, q.U_bat - q.U_mot_to, q.T_max_mot - q.T_pro_to,
       q.U_bat - q.V_esc, q.V_esc - q.U_mot_to,
       if i.s.MAX_TIME then i.s.MTOW - q.M_total_real else q.t_hov - i.s.t_hov_spec]) ∧
    (Feasible (constraintsOf i.s q) ↔
      (q.M_total_real ≤ q.M_total ∧ q.U_mot_to ≤ q.U_bat ∧ q.T_pro_to ≤ q.T_max_mot ∧
       q.V_esc ≤ q.U_bat ∧ q.U_mot_to ≤ q.V_esc ∧
       if i.s.MAX_TIME then q.M_total_real ≤ i.s.MTOW else i.s.t_hov_spec ≤ q.t_hov)) := by
  constructor
  · rw [sizing_code_ok_eq i q hq, dispatch_const]
    unfold constraintsOf
    cases hmt : i.s.MAX_TIME <;> simp
  · unfold Feasible constraintsOf
    cases hmt : i.s.MAX_TIME <;> simp [List.forall_mem_cons, sub_nonneg, and_assoc]

theorem constraint_vector_layout_witness :
    sizing_code ⟨modelW, specsSrc, refsSrc, dvW2⟩ "Const" = .ok (.constraintList
      [(coreVals ⟨modelW, specsSrc, refsSrc, dvW2⟩).M_total -
         (coreVals ⟨modelW, specsSrc, refsSrc, dvW2⟩).M_total_real,
       (coreVals ⟨modelW, specsSrc, refsSrc, dvW2⟩).U_bat -
         (coreVals ⟨modelW, specsSrc, refsSrc, dvW2⟩).U_mot_to,
       (coreVals ⟨modelW, specsSrc, refsSrc, dvW2⟩).T_max_mot -
         (coreVals ⟨modelW, specsSrc, refsSrc, dvW2⟩).T_pro_to,
       (coreVals ⟨modelW, specsSrc, refsSrc, dvW2⟩).U_bat -
         (coreVals ⟨modelW, specsSrc, refsSrc, dvW2⟩).V_esc,
       (coreVals ⟨modelW, specsSrc, refsSrc, dvW2⟩).V_esc -
         (coreVals ⟨modelW, specsSrc, refsSrc, dvW2⟩).U_mot_to,
       (coreVals ⟨modelW, specsSrc, refsSrc, dvW2⟩).t_hov - specsSrc.t_hov_spec]) := by
  have h2 : Admissible ⟨modelW, specsSrc, refsSrc, dvW2⟩ :=
    ⟨physModelW, physSpecsSrc, physRefsSrc, inBoxdvW2⟩
  exact (constraint_vector_layout _ _ (sizing_core_ok _ h2)).1

/-- C3: for every design vector whose evaluation completes, mode `ObjP`
returns the plain objective plus 1e9 times the sum of the magnitudes of
the strictly negative constraint entries; when every constraint entry is
nonnegative the `ObjP` result equals the `Obj` result exactly. -/
theorem penalized_objective_relation (i : Inputs) (q : Quantities)
    (hq : sizing_core i = .ok q) :
    (i.s.MAX_TIME = false → sizing_code i "ObjP" =
      .ok (.val (q.M_total_real + 1000000000 * negMagSum (constraintsOf i.s q)))) ∧
    (i.s.MAX_TIME = true → q.t_hov ≠ 0 → sizing_code i "ObjP" =
      .ok (.val (1 / q.t_hov + 1000000000 * negMagSum (constraintsOf i.s q)))) ∧
    (Feasible (constraintsOf i.s q) → sizing_code i "ObjP" = sizing_code i "Obj") := by
  refine ⟨?_, ?_, ?_⟩
  · intro hmt
    rw [sizing_code_ok_eq i q hq]
    unfold dispatch
    rw [if_neg (by decide : ¬ ("ObjP" = "Obj")), if_pos rfl, hmt]
    simp [penalty_eq]
  · intro hmt ht
    rw [sizing_code_ok_eq i q hq]
    unfold dispatch
    rw [if_neg (by decide : ¬ ("ObjP" = "Obj")), if_pos rfl, hmt]
    simp [ht, penalty_eq]
  · intro hfe
    have h0 : penalty (constraintsOf i.s q) = 0 := by
      rw [penalty_eq, negMagSum_of_feasible _ hfe, mul_zero]
    rw [sizing_code_ok_eq i q hq, sizing_code_ok_eq i q hq]
    unfold dispatch
    cases hmt : i.s.MAX_TIME
    · simp [h0]
    · by_cases ht : q.t_hov = 0
      · simp [ht]
      · simp [ht, h0]

theorem penalized_objective_relation_witness :
    sizing_code ⟨modelW, specsSrc, refsSrc, dvW3⟩ "ObjP" =
      .ok (.val ((coreVals ⟨modelW, specsSrc, refsSrc, dvW3⟩).M_total_real +
        1000000000 *
          negMagSum (constraintsOf specsSrc (coreVals ⟨modelW, specsSrc, refsSrc, dvW3⟩)))) := by
  have h3 : Admissible ⟨modelW, specsSrc, refsSrc, dvW3⟩ :=
    ⟨physModelW, physSpecsSrc, physRefsSrc, inBoxdvW3⟩
  exact (penalized_objective_relation _ _ (sizing_core_ok _ h3)).1 rfl

/-- C4: whenever some intermediate of the evaluation is non-physical — a
negative value reaching a root or a zero denominator reaching a
division — the evaluation signals a domain error in every output mode
and never returns a value; in this model over the rationals no NaN
exists to be returned silently. -/
theorem domain_error_loud (i : Inputs) (arg : String) (h : domainHazard i) :
    (∃ e : DomainError, sizing_code i arg = .error e) ∧
      ∀ o : Output, sizing_code i arg ≠ .ok o := by
  have hE : ∃ e : DomainError, sizing_code i arg = .error e := by
    unfold sizing_code sizing_core
    by_cases hr : rootHazard i
    · exact ⟨.negRoot, by rw [if_pos hr]⟩
    · have hd : divHazard i := h.resolve_left hr
      exact ⟨.zeroDiv, by rw [if_neg hr, if_pos hd]⟩
  obtain ⟨e, he⟩ := hE
  refine ⟨⟨e, he⟩, fun o ho => ?_⟩
  rw [he] at ho
  exact Except.noConfusion ho

theorem domain_error_loud_witness :
    ∃ e : DomainError, sizing_code ⟨modelW, specsSrc, refsSrc, dvW4⟩ "Obj" = .error e :=
  (domain_error_loud ⟨modelW, specsSrc, refsSrc, dvW4⟩ "Obj" hazardW4).1

/-- C5: for every design vector inside the inclusive bounds, constraint
mode terminates without a domain error and returns exactly 6 constraint
values (stated for the notebook's mission specification and reference
constants, for any physically sound instantiation of the modelled
sub-models). -/
theorem inbounds_constraint_mode_total (m : Model) (dv : DesignVector)
    (hm : PhysicalModel m) (hdv : inBox dv) :
    sizing_code ⟨m, specsSrc, refsSrc, dv⟩ "Const" =
      .ok (.constraintList (constraintsOf specsSrc (coreVals ⟨m, specsSrc, refsSrc, dv⟩))) ∧
    (constraintsOf specsSrc (coreVals ⟨m, specsSrc, refsSrc, dv⟩)).length = 6 := by
  have hadm : Admissible ⟨m, specsSrc, refsSrc, dv⟩ := ⟨hm, physSpecsSrc, physRefsSrc, hdv⟩
  constructor
  · rw [sizing_code_ok_eq _ _ (sizing_core_ok _ hadm), dispatch_const]
  · unfold constraintsOf
    cases h : specsSrc.MAX_TIME <;> simp

theorem inbounds_constraint_mode_total_witness :
    sizing_code ⟨modelW, specsSrc, refsSrc, dvW5⟩ "Const" =
      .ok (.constraintList (constraintsOf specsSrc (coreVals ⟨modelW, specsSrc, refsSrc, dvW5⟩))) ∧
    (constraintsOf specsSrc (coreVals ⟨modelW, specsSrc, refsSrc, dvW5⟩)).length = 6 :=
  inbounds_constraint_mode_total modelW dvW5 physModelW inBoxdvW5

/-- C6: the driver passes to both solver strategies (the `fmin_slsqp`
call and the `differential_evolution` call) exactly the eight inclusive
bound intervals of the section-6 table, in design-vector order. -/
theorem driver_bounds_match_spec :
    slsqpBounds = specBoundsTable ∧ diffEvolBounds = specBoundsTable ∧
      specBoundsTable.length = 8 :=
  ⟨rfl, rfl, rfl⟩

/-- C7 counterexample: the claim that every component of the notebook's
initial vector lies within its bound interval is false — its eighth
component, the frame aspect ratio, is 0.01, strictly below the 0.1
lower bound of the bounds list. -/
theorem initial_vector_out_of_box :
    ¬ inBox parameters ∧ parameters.k_D = 0.01 ∧ ¬ (0.1 ≤ parameters.k_D) := by
  refine ⟨?_, rfl, ?_⟩ <;> norm_num [inBox, parameters]

/-- C7 amended: the first seven components of the notebook's initial
vector (0.33, 3.2, 1.2, 1.0, 1.2, 1.0, 1.0, 0.01) lie within their
inclusive bound intervals, but the eighth component lies strictly below
its lower bound 0.1. -/
theorem initial_vector_bounds_amended :
    (0.3 ≤ parameters.beta_pro ∧ parameters.beta_pro ≤ 0.6) ∧
    (1 ≤ parameters.k_os ∧ parameters.k_os ≤ 400) ∧
    (1 ≤ parameters.k_ND ∧ parameters.k_ND ≤ 100) ∧
    (1 ≤ parameters.k_mot ∧ parameters.k_mot ≤ 100) ∧
    (1 ≤ parameters.k_speed_mot ∧ parameters.k_speed_mot ≤ 400) ∧
    (0.1 ≤ parameters.k_mb ∧ parameters.k_mb ≤ 100) ∧
    (1 ≤ parameters.k_vb ∧ parameters.k_vb ≤ 5) ∧
    parameters.k_D < 0.1 := by
  norm_num [parameters]

/-- C9: the evaluation is a pure function of the model, the
specification constants and the design vector: two calls with identical
inputs and identical mode argument return identical results (the
embedding carries no hidden state between calls). -/
theorem evaluation_pure (i j : Inputs) (a b : String) (hij : i = j) (hab : a = b) :
    sizing_code i a = sizing_code j b := by
  rw [hij, hab]

theorem evaluation_pure_witness :
    sizing_code ⟨modelW, specsSrc, refsSrc, dvW⟩ "ObjP" =
      sizing_code ⟨modelW, specsSrc, refsSrc, dvW⟩ "ObjP" :=
  evaluation_pure _ _ _ _ rfl rfl

/-- C10: for every mode string other than `Obj`, `ObjP` and `Prt` — for
example `Const`, a misspelled mode, or the empty string — the dispatch
falls through to its final `else` and returns the constraint vector,
raising no error. -/
theorem unknown_mode_defaults_to_constraints (i : Inputs) (q : Quantities) (arg : String)
    (hq : sizing_core i = .ok q) (h1 : arg ≠ "Obj") (h2 : arg ≠ "ObjP") (h3 : arg ≠ "Prt") :
    sizing_code i arg = .ok (.constraintList (constraintsOf i.s q)) := by
  rw [sizing_code_ok_eq i q hq]
  unfold dispatch
  rw [if_neg h1, if_neg h2, if_neg h3]

theorem unknown_mode_defaults_to_constraints_witness :
    sizing_code ⟨modelW, specsSrc, refsSrc, dvW3⟩ "" =
      .ok (.constraintList (constraintsOf specsSrc (coreVals ⟨modelW, specsSrc, refsSrc, dvW3⟩))) := by
  have h3 : Admissible ⟨modelW, specsSrc, refsSrc, dvW3⟩ :=
    ⟨physModelW, physSpecsSrc, physRefsSrc, inBoxdvW3⟩
  exact unknown_mode_defaults_to_constraints _ _ _ (sizing_core_ok _ h3)
    (by decide) (by decide) (by decide)

end Multirotor
